import Mathlib

/-
Verification of the replymint frontend bridge logic.

Shallow embedding of:
  * src/frontend/src/app/api/checkout/route.ts   (POST handler)
  * src/unnamed/part_002                         (superseded POST handler)
  * src/unnamed/part_001                         (startCheckout client helper)
  * src/frontend/src/app/auth/signin/page.tsx    (handleSubmit error mapping)
  * src/frontend/src/app/auth/error/page.tsx     (getErrorDetails)
  * src/unnamed/part_003                         (NextAuth authorize callback)

JSON values produced by JSON.parse are modelled by the inductive `Json`.
A JavaScript value that may be `undefined` is modelled as `Option Json`
with `none` standing for `undefined` (JSON.parse never yields undefined,
but property access on a missing key does).  A fallible JS computation
(JSON parse, fetch) is modelled with `Except String` carrying the thrown
error message; the exact text of engine-raised TypeError messages is not
observable in any theorem below, so it is modelled by a fixed string.
-/

inductive Json where
  | null
  | bool (b : Bool)
  | num (n : Int)
  | str (s : String)
  | arr (elems : List Json)
  | obj (fields : List (String × Json))

/-- Field lookup in a parsed JSON object (parsed objects have unique keys). -/
def jlookup : List (String × Json) → String → Option Json
  | [], _ => none
  | (k, v) :: rest, key => if k = key then some v else jlookup rest key

/-- JS property access `v.key` on a value that is not null/undefined:
field lookup on objects, `undefined` (= `none`) on arrays (for the
non-numeric keys used here) and on primitives. -/
def jsGet : Json → String → Option Json
  | .obj fs, key => jlookup fs key
  | _, _ => none

/-- JS optional-chaining access `x?.key` where `x` itself may be
`undefined` (`none`) or `null`: both short-circuit to `undefined`. -/
def jsGetOpt : Option Json → String → Option Json
  | none, _ => none
  | some .null, _ => none
  | some v, key => jsGet v key

/-- Plain (non-optional) JS property access `v.key`, which throws a
TypeError when `v` is null; modelled message text is fixed. -/
def jsGetStrict : Json → String → Except String (Option Json)
  | .null, _ => .error "TypeError: cannot read properties of null"
  | v, key => .ok (jsGet v key)

/-- JS `key in v`, which throws a TypeError on non-objects.  Arrays are
objects in JS; for the non-numeric keys used here the answer is false. -/
def jsHasIn : Json → String → Except String Bool
  | .obj fs, key => .ok (jlookup fs key).isSome
  | .arr _, _ => .ok false
  | _, _ => .error "TypeError: cannot use in operator on a non-object"

/-- JS truthiness of a defined value. -/
def truthy : Json → Bool
  | .null => false
  | .bool b => b
  | .num n => n != 0
  | .str s => s != ""
  | .arr _ => true
  | .obj _ => true

/-- JS truthiness of a possibly-undefined value. -/
def truthyOpt : Option Json → Bool
  | none => false
  | some v => truthy v

/-- JS nullish test (`undefined` or `null`), as used by the `??` operator. -/
def nullish : Option Json → Bool
  | none => true
  | some .null => true
  | some _ => false

/-- JS `a || b` on possibly-undefined values: `a` when truthy, else `b`. -/
def jsOrV (a b : Option Json) : Option Json :=
  if truthyOpt a then a else b

/-- Outcome of one `fetch` call followed by `response.json()`:
either the fetch itself threw (network error), or a reply arrived with a
status and a body whose JSON parse may fail. -/
inductive FetchResult where
  | thrown (msg : String)
  | reply (status : Nat) (body : Except String Json)

/-- `response.ok`: status in the 2xx range. -/
def okStatus (status : Nat) : Bool :=
  200 ≤ status && status ≤ 299

/-- The response a route handler returns (NextResponse.json payload). -/
structure HttpResponse where
  status : Nat
  body : Json

/-- Shorthand for the error bodies built by the handlers. -/
def errJson (msg : String) : Json :=
  .obj [("error", .str msg)]

/-- src/frontend/src/app/api/checkout/route.ts, lines 36-37:
`const url = 'data' in sessionData ? sessionData.data.url : sessionData.url;`
Throws when `sessionData` is a primitive or null (the `in` operator) or
when `sessionData.data` is null (the chained access). -/
def urlOfRoute (sessionData : Json) : Except String (Option Json) :=
  match jsHasIn sessionData "data" with
  | .error msg => .error msg
  | .ok true =>
    match jsGet sessionData "data" with
    | some d => jsGetStrict d "url"
    | none => .ok none
  | .ok false => .ok (jsGet sessionData "url")

/-- src/unnamed/part_002, line 33:
`const url = (sessionData as any)?.data?.url ?? (sessionData as any)?.url;`
Never throws. -/
def urlOfPart002 (sessionData : Json) : Option Json :=
  let b := jsGetOpt (jsGetOpt (some sessionData) "data") "url"
  if nullish b then jsGetOpt (some sessionData) "url" else b

/-- POST handler of src/frontend/src/app/api/checkout/route.ts.
`reqBody` is the outcome of `req.json()`; `backend` the outcome of the
single `fetch` to the backend.  Returns the HTTP response together with
the number of backend calls performed.  In the non-ok branch (lines
30-33) the `.catch` replaces only a rejected `response.json()` by `{}`;
a reply body that parses to JSON null reaches `errorData.detail` as a
plain (throwing) property access, so the outer catch turns it into a
500 carrying the TypeError message. -/
def checkoutPOST (reqBody : Except String Json) (backend : FetchResult) :
    HttpResponse × Nat :=
  match reqBody with
  | .error msg => (⟨500, errJson msg⟩, 0)
  | .ok body =>
    let priceId := jsGetOpt (some body) "priceId"
    if !truthyOpt priceId then
      (⟨400, errJson "Missing priceId"⟩, 0)
    else
      match backend with
      | .thrown msg => (⟨500, errJson msg⟩, 1)
      | .reply status rbody =>
        if !okStatus status then
          let errorData : Json := match rbody with
            | .ok j => j
            | .error _ => .obj []
          match jsGetStrict errorData "detail" with
          | .error msg => (⟨500, errJson msg⟩, 1)
          | .ok detail =>
            let errVal : Json :=
              match detail with
              | some v =>
                if truthy v then v
                else .str "Failed to create checkout session"
              | none => .str "Failed to create checkout session"
            (⟨status, .obj [("error", errVal)]⟩, 1)
        else
          match rbody with
          | .error msg => (⟨500, errJson msg⟩, 1)
          | .ok sessionData =>
            match urlOfRoute sessionData with
            | .error msg => (⟨500, errJson msg⟩, 1)
            | .ok url =>
              match url with
              | some v =>
                if truthy v then (⟨200, .obj [("url", v)]⟩, 1)
                else (⟨502, errJson "No checkout URL returned"⟩, 1)
              | none => (⟨502, errJson "No checkout URL returned"⟩, 1)

/-- POST handler of src/unnamed/part_002: identical to `checkoutPOST`
except for the url extraction step (optional chaining with `??`).  Its
non-ok branch (lines 27-30) is textually identical to route.ts's,
including the throwing `errorData.detail` access on a null body. -/
def checkoutPOSTPart002 (reqBody : Except String Json) (backend : FetchResult) :
    HttpResponse × Nat :=
  match reqBody with
  | .error msg => (⟨500, errJson msg⟩, 0)
  | .ok body =>
    let priceId := jsGetOpt (some body) "priceId"
    if !truthyOpt priceId then
      (⟨400, errJson "Missing priceId"⟩, 0)
    else
      match backend with
      | .thrown msg => (⟨500, errJson msg⟩, 1)
      | .reply status rbody =>
        if !okStatus status then
          let errorData : Json := match rbody with
            | .ok j => j
            | .error _ => .obj []
          match jsGetStrict errorData "detail" with
          | .error msg => (⟨500, errJson msg⟩, 1)
          | .ok detail =>
            let errVal : Json :=
              match detail with
              | some v =>
                if truthy v then v
                else .str "Failed to create checkout session"
              | none => .str "Failed to create checkout session"
            (⟨status, .obj [("error", errVal)]⟩, 1)
        else
          match rbody with
          | .error msg => (⟨500, errJson msg⟩, 1)
          | .ok sessionData =>
            match urlOfPart002 sessionData with
            | some v =>
              if truthy v then (⟨200, .obj [("url", v)]⟩, 1)
              else (⟨502, errJson "No checkout URL returned"⟩, 1)
            | none => (⟨502, errJson "No checkout URL returned"⟩, 1)

/-- Ok-reply bodies on which the two url extractions agree: an object
whose `data` field, when present, is an object carrying a non-null
`url`.  Both canonical backend success shapes satisfy this. -/
def goodReplyB : Json → Bool
  | .obj fs =>
    match jlookup fs "data" with
    | none => true
    | some (.obj ds) =>
      match jlookup ds "url" with
      | some .null => false
      | some _ => true
      | none => false
    | some _ => false
  | _ => false

/-- Backend outcomes on which the two handlers agree: every outcome
except an ok reply whose parsed body falls outside `goodReplyB`. -/
def benignBackend : FetchResult → Bool
  | .reply status (.ok j) => if okStatus status then goodReplyB j else true
  | _ => true

/-- src/frontend/src/app/auth/signin/page.tsx, handleSubmit lines 49-64:
the user-facing message chosen for a non-ok login reply status. -/
def loginErrorMessage (status : Nat) : String :=
  if status = 404 then
    "User not found. Please check your email or sign up for a new account."
  else if status = 401 then
    "Invalid credentials. Please check your email."
  else if status = 500 then
    "Server error. Please try again later."
  else if status = 403 then
    "Account disabled. Please contact support."
  else
    "Login failed. Please try again."

/-- The record returned by getErrorDetails on the auth error page; the
icon component is identified by its imported name. -/
structure ErrorDetails where
  title : String
  description : String
  icon : String
  color : String
  bgColor : String

/-- src/frontend/src/app/auth/error/page.tsx, getErrorDetails lines
17-52: switch on the error code (`none` models a null code). -/
def getErrorDetails (errorCode : Option String) : ErrorDetails :=
  match errorCode with
  | some "Configuration" =>
    { title := "Server Configuration Error"
      description :=
        "There was a problem with the server configuration. Please try again later."
      icon := "AlertTriangle"
      color := "text-red-600"
      bgColor := "bg-red-100" }
  | some "AccessDenied" =>
    { title := "Access Denied"
      description :=
        "You don\x27t have permission to access this resource. Please contact your administrator."
      icon := "AlertTriangle"
      color := "text-red-600"
      bgColor := "bg-red-100" }
  | some "Verification" =>
    { title := "Verification Failed"
      description :=
        "The verification link has expired or is invalid. Please request a new one."
      icon := "AlertTriangle"
      color := "text-orange-600"
      bgColor := "bg-orange-100" }
  | _ =>
    { title := "Authentication Error"
      description :=
        "An unexpected error occurred during authentication. Please try again."
      icon := "AlertTriangle"
      color := "text-red-600"
      bgColor := "bg-red-100" }

/-- The user object that the authorize callback of src/unnamed/part_003
returns to NextAuth on success (the client-side stored identity).  A
field is `Option Json` because JS `||` may propagate `undefined`. -/
structure AuthorizedUser where
  id : Option Json
  email : String
  name : Option Json
  plan_tier : Option Json
  subscription_status : Option Json
  role : Option Json
  backendToken : Option Json

/-- src/unnamed/part_003, authorize lines 11-44.  `credEmail` is
`credentials?.email`; `loginReply` the outcome of the fetch to
POST /api/v1/users/login.  Every thrown error (network, parse, or the
property accesses `data.user.*` when `data.user` is null/undefined) is
caught and yields null (`none`); a non-ok reply also yields null. -/
def authorize (credEmail : Option String) (loginReply : FetchResult) :
    Option AuthorizedUser :=
  match credEmail with
  | none => none
  | some email =>
    if email = "" then none
    else
      match loginReply with
      | .thrown _ => none
      | .reply status body =>
        if okStatus status then
          match body with
          | .error _ => none
          | .ok data =>
            match jsGetOpt (some data) "user" with
            | none => none
            | some .null => none
            | some u =>
              some
                { id := jsOrV (jsGet u "tenantId") (jsGet u "id")
                  email := email
                  name := jsOrV (jsGet u "name") (some (.str email))
                  plan_tier := jsOrV (jsGet u "plan_tier") (some (.str "starter"))
                  subscription_status :=
                    jsOrV (jsGet u "subscription_status") (some (.str "trial"))
                  role := jsOrV (jsGet u "role") (some (.str "user"))
                  backendToken := jsGet data "token" }
        else none

/-- Modelled from the spec: the backend endpoint POST /api/v1/users/login
is absent from the source tree (only its frontend callers are present).
Spec section 4.3 and section 8: login with an unregistered email returns
404 with no token issued; login with a registered email returns 200 with
a token and a user object containing role and plan_tier.  `db` maps a
registered email to its (token, role, plan_tier) record. -/
def backendLogin (db : String → Option (String × String × String))
    (email : String) : FetchResult :=
  match db email with
  | none => .reply 404 (.ok (.obj [("detail", .str "User not found")]))
  | some (token, role, tier) =>
    .reply 200 (.ok (.obj
      [("token", .str token),
       ("user", .obj [("role", .str role), ("plan_tier", .str tier)])]))

/-- What a run of the client helper startCheckout did: where the browser
was navigated (`none` = no navigation) and how many network calls to
/api/checkout were made. -/
structure StartCheckoutResult where
  navigatedTo : Option Json
  calls : Nat

/-- src/unnamed/part_001, startCheckout lines 15-35 (the identical copy
at lines 201-221 of the other pricing page).  `priceId` is the JS
argument (string, null or undefined); `response` the outcome of the
fetch to /api/checkout.  Thrown errors are caught and only logged. -/
def startCheckout (priceId : Option Json) (response : FetchResult) :
    StartCheckoutResult :=
  if !truthyOpt priceId then ⟨none, 0⟩
  else
    match response with
    | .thrown _ => ⟨none, 1⟩
    | .reply status body =>
      if okStatus status then
        match body with
        | .error _ => ⟨none, 1⟩
        | .ok data =>
          let u := jsGetOpt (some data) "url"
          if truthyOpt u then ⟨u, 1⟩ else ⟨none, 1⟩
      else ⟨none, 1⟩

/-
Theorems.
-/

/-- On a `goodReplyB` body the two url extractions coincide. -/
theorem urlOfRoute_eq_part002 (j : Json) (h : goodReplyB j = true) :
    urlOfRoute j = Except.ok (urlOfPart002 j) := by
  cases j with
  | obj fs =>
    cases hd : jlookup fs "data" with
    | none =>
      simp [urlOfRoute, urlOfPart002, jsHasIn, jsGet, jsGetOpt, nullish, hd]
    | some d =>
      cases d with
      | obj ds =>
        cases hu : jlookup ds "url" with
        | none => simp [goodReplyB, hd, hu] at h
        | some v =>
          cases v with
          | null => simp [goodReplyB, hd, hu] at h
          | bool b =>
            simp [urlOfRoute, urlOfPart002, jsHasIn, jsGet, jsGetOpt,
              jsGetStrict, nullish, hd, hu]
          | num n =>
            simp [urlOfRoute, urlOfPart002, jsHasIn, jsGet, jsGetOpt,
              jsGetStrict, nullish, hd, hu]
          | str s =>
            simp [urlOfRoute, urlOfPart002, jsHasIn, jsGet, jsGetOpt,
              jsGetStrict, nullish, hd, hu]
          | arr xs =>
            simp [urlOfRoute, urlOfPart002, jsHasIn, jsGet, jsGetOpt,
              jsGetStrict, nullish, hd, hu]
          | obj gs =>
            simp [urlOfRoute, urlOfPart002, jsHasIn, jsGet, jsGetOpt,
              jsGetStrict, nullish, hd, hu]
      | null => simp [goodReplyB, hd] at h
      | bool b => simp [goodReplyB, hd] at h
      | num n => simp [goodReplyB, hd] at h
      | str s => simp [goodReplyB, hd] at h
      | arr xs => simp [goodReplyB, hd] at h
  | null => simp [goodReplyB] at h
  | bool b => simp [goodReplyB] at h
  | num n => simp [goodReplyB] at h
  | str s => simp [goodReplyB] at h
  | arr xs => simp [goodReplyB] at h

/-- C1 (corrected, counterexample): the two checkout handlers are NOT
behaviorally equivalent.  On the backend ok-reply body
`.obj [("data", .obj []), ("url", "https://pay.example/cs")]` the
route.ts handler evaluates `sessionData.data.url` (undefined) and
answers 502, while the part_002 handler falls back to the top-level url
via `??` and answers 200. -/
theorem checkout_handlers_differ :
    checkoutPOST (.ok (.obj [("priceId", .str "price_123")]))
        (.reply 200 (.ok (.obj [("data", .obj []),
          ("url", .str "https://pay.example/cs")]))) ≠
      checkoutPOSTPart002 (.ok (.obj [("priceId", .str "price_123")]))
        (.reply 200 (.ok (.obj [("data", .obj []),
          ("url", .str "https://pay.example/cs")]))) := by
  intro h
  exact absurd (congrArg (fun r => r.1.status) h) (by decide)

/-- C1 (amended): the two handlers agree on every request body and every
backend outcome except an ok reply whose parsed body is not an object,
or whose `data` field is present but is not an object carrying a
non-null `url` (in particular they agree on all error paths and on both
canonical success shapes). -/
theorem checkout_handlers_agree (reqBody : Except String Json)
    (backend : FetchResult) (h : benignBackend backend = true) :
    checkoutPOST reqBody backend = checkoutPOSTPart002 reqBody backend := by
  cases reqBody with
  | error msg => rfl
  | ok body =>
    cases backend with
    | thrown m => rfl
    | reply status rbody =>
      by_cases hok : okStatus status = true
      · cases rbody with
        | error m => simp [checkoutPOST, checkoutPOSTPart002, hok]
        | ok j =>
          have hg : goodReplyB j = true := by
            simpa [benignBackend, hok] using h
          simp [checkoutPOST, checkoutPOSTPart002, hok,
            urlOfRoute_eq_part002 j hg]
      · simp [checkoutPOST, checkoutPOSTPart002,
          Bool.not_eq_true _ ▸ hok]

theorem checkout_handlers_agree_witness :
    benignBackend (.reply 200 (.ok (.obj [("url", .str "https://s")]))) = true ∧
    checkoutPOST (.ok (.obj [("priceId", .str "price_abc")]))
        (.reply 200 (.ok (.obj [("url", .str "https://s")]))) =
      checkoutPOSTPart002 (.ok (.obj [("priceId", .str "price_abc")]))
        (.reply 200 (.ok (.obj [("url", .str "https://s")]))) :=
  ⟨by decide,
   checkout_handlers_agree (.ok (.obj [("priceId", .str "price_abc")]))
     (.reply 200 (.ok (.obj [("url", .str "https://s")]))) (by decide)⟩

/-- C2: a checkout request whose JSON body lacks a priceId (absent key
or empty string — parsed JSON cannot hold `undefined`) gets a 400 with
an error message from both coexisting handlers, and neither performs
any backend call. -/
theorem checkout_missing_priceId (body : Json) (backend : FetchResult)
    (h : jsGetOpt (some body) "priceId" = none ∨
         jsGetOpt (some body) "priceId" = some (.str "")) :
    checkoutPOST (.ok body) backend = (⟨400, errJson "Missing priceId"⟩, 0) ∧
    checkoutPOSTPart002 (.ok body) backend =
      (⟨400, errJson "Missing priceId"⟩, 0) := by
  have ht : truthyOpt (jsGetOpt (some body) "priceId") = false := by
    rcases h with h | h <;> rw [h] <;> decide
  exact ⟨by simp [checkoutPOST, ht], by simp [checkoutPOSTPart002, ht]⟩

theorem checkout_missing_priceId_witness :
    jsGetOpt (some (Json.obj [])) "priceId" = none ∧
    checkoutPOST (.ok (.obj [])) (.thrown "network down") =
      (⟨400, errJson "Missing priceId"⟩, 0) :=
  ⟨rfl, (checkout_missing_priceId (.obj []) (.thrown "network down")
    (Or.inl rfl)).1⟩

/-- Helper: with a truthy priceId the route.ts handler performs exactly
one backend call, whatever the backend does. -/
theorem checkoutPOST_calls_one (body : Json) (backend : FetchResult)
    (hp : truthyOpt (jsGetOpt (some body) "priceId") = true) :
    (checkoutPOST (.ok body) backend).2 = 1 := by
  cases backend with
  | thrown m => simp [checkoutPOST, hp]
  | reply status rbody =>
    by_cases hok : okStatus status = true
    · cases rbody with
      | error m => simp [checkoutPOST, hp, hok]
      | ok j =>
        cases hu : urlOfRoute j with
        | error m => simp [checkoutPOST, hp, hok, hu]
        | ok url =>
          cases url with
          | none => simp [checkoutPOST, hp, hok, hu]
          | some v =>
            by_cases hv : truthy v = true <;>
              simp [checkoutPOST, hp, hok, hu, hv]
    · cases rbody with
      | error m => simp [checkoutPOST, hp, hok, jsGetStrict, jsGet, jlookup]
      | ok j =>
        cases hd : jsGetStrict j "detail" with
        | error m => simp [checkoutPOST, hp, hok, hd]
        | ok d => simp [checkoutPOST, hp, hok, hd]

/-- Helper: same call count for the part_002 handler. -/
theorem checkoutPOSTPart002_calls_one (body : Json) (backend : FetchResult)
    (hp : truthyOpt (jsGetOpt (some body) "priceId") = true) :
    (checkoutPOSTPart002 (.ok body) backend).2 = 1 := by
  cases backend with
  | thrown m => simp [checkoutPOSTPart002, hp]
  | reply status rbody =>
    by_cases hok : okStatus status = true
    · cases rbody with
      | error m => simp [checkoutPOSTPart002, hp, hok]
      | ok j =>
        cases hu : urlOfPart002 j with
        | none => simp [checkoutPOSTPart002, hp, hok, hu]
        | some v =>
          by_cases hv : truthy v = true <;>
            simp [checkoutPOSTPart002, hp, hok, hu, hv]
    · cases rbody with
      | error m =>
        simp [checkoutPOSTPart002, hp, hok, jsGetStrict, jsGet, jlookup]
      | ok j =>
        cases hd : jsGetStrict j "detail" with
        | error m => simp [checkoutPOSTPart002, hp, hok, hd]
        | ok d => simp [checkoutPOSTPart002, hp, hok, hd]

/-- Helper: the route.ts handler never makes more than one backend call. -/
theorem checkoutPOST_calls_le_one (reqBody : Except String Json)
    (backend : FetchResult) : (checkoutPOST reqBody backend).2 ≤ 1 := by
  cases reqBody with
  | error m => simp [checkoutPOST]
  | ok body =>
    by_cases hp : truthyOpt (jsGetOpt (some body) "priceId") = true
    · exact le_of_eq (checkoutPOST_calls_one body backend hp)
    · simp [checkoutPOST, Bool.not_eq_true _ ▸ hp]

/-- C3 (corrected, counterexample): a failing (non-ok) backend reply is
NOT surfaced as a generic 500 — the handler forwards the backend status.
With backend status 404 the handler answers 404. -/
theorem checkout_nonok_status_forwarded :
    checkoutPOST (.ok (.obj [("priceId", .str "price_123")]))
        (.reply 404 (.ok (.obj []))) =
      (⟨404, errJson "Failed to create checkout session"⟩, 1) ∧
    (404 : Nat) ≠ 500 :=
  ⟨rfl, by decide⟩

/-- C3 (amended): a thrown network error is surfaced as a 500 carrying
the thrown message, and so is a parse failure of an ok reply; a non-ok
reply whose parsed body is JSON null also becomes a 500, because the
`errorData.detail` access throws a TypeError that the outer catch
converts (the `.catch` guards only the parse itself); a non-ok reply
whose body fails to parse is surfaced with the backend's own status and
the default error message (the `.catch` substitutes `{}`); every other
non-ok reply is surfaced with the backend's own status and an error
body; and no input ever causes more than one backend call (no retry). -/
theorem checkout_failure_surfaced (body : Json) (backend : FetchResult)
    (hp : truthyOpt (jsGetOpt (some body) "priceId") = true) :
    (∀ msg, backend = .thrown msg →
        checkoutPOST (.ok body) backend = (⟨500, errJson msg⟩, 1)) ∧
    (∀ status msg, backend = .reply status (.error msg) →
        okStatus status = true →
        checkoutPOST (.ok body) backend = (⟨500, errJson msg⟩, 1)) ∧
    (∀ status, backend = .reply status (.ok .null) → okStatus status = false →
        (checkoutPOST (.ok body) backend).1.status = 500 ∧
        (∃ m, (checkoutPOST (.ok body) backend).1.body = errJson m) ∧
        (checkoutPOST (.ok body) backend).2 = 1) ∧
    (∀ status msg, backend = .reply status (.error msg) →
        okStatus status = false →
        checkoutPOST (.ok body) backend =
          (⟨status,
            .obj [("error", .str "Failed to create checkout session")]⟩, 1)) ∧
    (∀ status j, backend = .reply status (.ok j) → okStatus status = false →
        j ≠ .null →
        (checkoutPOST (.ok body) backend).1.status = status ∧
        (∃ m, (checkoutPOST (.ok body) backend).1.body = .obj [("error", m)]) ∧
        (checkoutPOST (.ok body) backend).2 = 1) ∧
    (∀ (reqAny : Except String Json) (backendAny : FetchResult),
        (checkoutPOST reqAny backendAny).2 ≤ 1) := by
  refine ⟨?_, ?_, ?_, ?_, ?_, fun reqAny backendAny =>
    checkoutPOST_calls_le_one reqAny backendAny⟩
  · rintro msg rfl
    simp [checkoutPOST, hp]
  · rintro status msg rfl hok
    simp [checkoutPOST, hp, hok]
  · rintro status rfl hok
    have he : checkoutPOST (.ok body) (.reply status (.ok .null)) =
        (⟨500, errJson "TypeError: cannot read properties of null"⟩, 1) := by
      simp [checkoutPOST, hp, hok, jsGetStrict]
    exact ⟨by rw [he], ⟨_, by rw [he]⟩, by rw [he]⟩
  · rintro status msg rfl hok
    simp [checkoutPOST, hp, hok, jsGetStrict, jsGet, jlookup]
  · rintro status j rfl hok hnull
    have hd : jsGetStrict j "detail" = .ok (jsGet j "detail") := by
      cases j with
      | null => exact absurd rfl hnull
      | bool b => rfl
      | num n => rfl
      | str s => rfl
      | arr xs => rfl
      | obj fs => rfl
    have he : checkoutPOST (.ok body) (.reply status (.ok j)) =
        (⟨status, .obj [("error",
          match jsGet j "detail" with
          | some v =>
            if truthy v then v else .str "Failed to create checkout session"
          | none => .str "Failed to create checkout session")]⟩, 1) := by
      simp [checkoutPOST, hp, hok, hd]
    exact ⟨by rw [he], ⟨_, by rw [he]⟩, by rw [he]⟩

theorem checkout_failure_surfaced_witness :
    truthyOpt (jsGetOpt (some (Json.obj [("priceId", Json.str "price_123")]))
        "priceId") = true ∧
    checkoutPOST (.ok (.obj [("priceId", .str "price_123")]))
        (.thrown "fetch failed") = (⟨500, errJson "fetch failed"⟩, 1) ∧
    (checkoutPOST (.ok (.obj [("priceId", .str "price_123")]))
        (.reply 404 (.ok .null))).1.status = 500 :=
  ⟨by decide,
   (checkout_failure_surfaced (.obj [("priceId", .str "price_123")])
      (.thrown "fetch failed") (by decide)).1 "fetch failed" rfl,
   ((checkout_failure_surfaced (.obj [("priceId", .str "price_123")])
      (.reply 404 (.ok .null)) (by decide)).2.2.1 404 rfl (by decide)).1⟩

/-- C4 (corrected, counterexample): on the ok reply body
`.obj [("data", .obj []), ("url", "https://pay.example/cs")]` a url IS
present at top level, yet the route.ts handler answers 502, because the
ternary `'data' in sessionData ? sessionData.data.url : sessionData.url`
commits to the `data` branch as soon as the key exists. -/
theorem checkout_url_present_yet_502 :
    checkoutPOST (.ok (.obj [("priceId", .str "price_9")]))
        (.reply 200 (.ok (.obj [("data", .obj []),
          ("url", .str "https://pay.example/cs")]))) =
      (⟨502, errJson "No checkout URL returned"⟩, 1) ∧
    jsGet (.obj [("data", .obj []), ("url", .str "https://pay.example/cs")])
        "url" = some (.str "https://pay.example/cs") :=
  ⟨rfl, rfl⟩

/-- C4 (amended): on an ok backend reply the handler selects the url by
the source expression modelled as `urlOfRoute` (the `data` branch when a
`data` key exists, the top-level `url` otherwise); a selection that
yields no truthy value gives 502 with an error body, and a truthy
selected value v gives 200 with body containing v as url. -/
theorem checkout_url_selection (body j : Json) (status : Nat)
    (hp : truthyOpt (jsGetOpt (some body) "priceId") = true)
    (hs : okStatus status = true) :
    (∀ u, urlOfRoute j = .ok u → truthyOpt u = false →
        checkoutPOST (.ok body) (.reply status (.ok j)) =
          (⟨502, errJson "No checkout URL returned"⟩, 1)) ∧
    (∀ v, urlOfRoute j = .ok (some v) → truthy v = true →
        checkoutPOST (.ok body) (.reply status (.ok j)) =
          (⟨200, .obj [("url", v)]⟩, 1)) := by
  constructor
  · intro u hu htr
    cases u with
    | none => simp [checkoutPOST, hp, hs, hu]
    | some v =>
      have hv : truthy v = false := by simpa [truthyOpt] using htr
      simp [checkoutPOST, hp, hs, hu, hv]
  · intro v hu hv
    simp [checkoutPOST, hp, hs, hu, hv]

theorem checkout_url_selection_witness :
    urlOfRoute (.obj [("url", .str "https://pay.example/ok")]) =
      .ok (some (.str "https://pay.example/ok")) ∧
    checkoutPOST (.ok (.obj [("priceId", .str "price_9")]))
        (.reply 200 (.ok (.obj [("url", .str "https://pay.example/ok")]))) =
      (⟨200, .obj [("url", .str "https://pay.example/ok")]⟩, 1) :=
  ⟨rfl,
   (checkout_url_selection (.obj [("priceId", .str "price_9")])
      (.obj [("url", .str "https://pay.example/ok")]) 200
      (by decide) (by decide)).2 (.str "https://pay.example/ok")
     rfl (by decide)⟩

/-- C5: a well-formed checkout request (body carrying a non-empty string
priceId) triggers exactly one backend call in both coexisting handlers,
whatever the backend replies. -/
theorem checkout_exactly_one_call (body : Json) (backend : FetchResult)
    (p : String) (hp : jsGetOpt (some body) "priceId" = some (.str p))
    (hne : p ≠ "") :
    (checkoutPOST (.ok body) backend).2 = 1 ∧
    (checkoutPOSTPart002 (.ok body) backend).2 = 1 := by
  have ht : truthyOpt (jsGetOpt (some body) "priceId") = true := by
    rw [hp]; simp [truthyOpt, truthy, hne]
  exact ⟨checkoutPOST_calls_one body backend ht,
    checkoutPOSTPart002_calls_one body backend ht⟩

theorem checkout_exactly_one_call_witness :
    jsGetOpt (some (Json.obj [("priceId", Json.str "price_123")]))
        "priceId" = some (.str "price_123") ∧
    (checkoutPOST (.ok (.obj [("priceId", .str "price_123")]))
        (.reply 503 (.error "bad json"))).2 = 1 ∧
    (checkoutPOSTPart002 (.ok (.obj [("priceId", .str "price_123")]))
        (.reply 503 (.error "bad json"))).2 = 1 :=
  ⟨rfl,
   (checkout_exactly_one_call (.obj [("priceId", .str "price_123")])
      (.reply 503 (.error "bad json")) "price_123" rfl (by decide)).1,
   (checkout_exactly_one_call (.obj [("priceId", .str "price_123")])
      (.reply 503 (.error "bad json")) "price_123" rfl (by decide)).2⟩

/-- C8: the route.ts handler accepts both backend success shapes — the
top-level form and the wrapped form — and returns the identical 200
response with body containing the same url for either. -/
theorem checkout_both_shapes (body : Json) (u : String) (status : Nat)
    (hp : truthyOpt (jsGetOpt (some body) "priceId") = true)
    (hs : okStatus status = true) (hu : u ≠ "") :
    checkoutPOST (.ok body) (.reply status (.ok (.obj [("url", .str u)]))) =
      (⟨200, .obj [("url", .str u)]⟩, 1) ∧
    checkoutPOST (.ok body)
        (.reply status (.ok (.obj [("data", .obj [("url", .str u)])]))) =
      (⟨200, .obj [("url", .str u)]⟩, 1) := by
  have ht : truthy (.str u) = true := by simp [truthy, hu]
  have h1 : urlOfRoute (.obj [("url", .str u)]) = .ok (some (.str u)) := rfl
  have h2 : urlOfRoute (.obj [("data", .obj [("url", .str u)])]) =
      .ok (some (.str u)) := rfl
  exact ⟨by simp [checkoutPOST, hp, hs, h1, ht],
    by simp [checkoutPOST, hp, hs, h2, ht]⟩

theorem checkout_both_shapes_witness :
    checkoutPOST (.ok (.obj [("priceId", .str "price_123")]))
        (.reply 200 (.ok (.obj [("url", .str "https://s")]))) =
      (⟨200, .obj [("url", .str "https://s")]⟩, 1) ∧
    checkoutPOST (.ok (.obj [("priceId", .str "price_123")]))
        (.reply 200 (.ok (.obj [("data", .obj [("url", .str "https://s")])]))) =
      (⟨200, .obj [("url", .str "https://s")]⟩, 1) :=
  checkout_both_shapes (.obj [("priceId", .str "price_123")]) "https://s" 200
    (by decide) (by decide) (by decide)

/-- C6: the sign-in handler maps each of the four backend failure
statuses to its own fixed user-facing message, and no two of the four
statuses share a message. -/
theorem signin_distinct_messages :
    loginErrorMessage 404 =
      "User not found. Please check your email or sign up for a new account." ∧
    loginErrorMessage 401 = "Invalid credentials. Please check your email." ∧
    loginErrorMessage 403 = "Account disabled. Please contact support." ∧
    loginErrorMessage 500 = "Server error. Please try again later." ∧
    loginErrorMessage 404 ≠ loginErrorMessage 401 ∧
    loginErrorMessage 404 ≠ loginErrorMessage 403 ∧
    loginErrorMessage 404 ≠ loginErrorMessage 500 ∧
    loginErrorMessage 401 ≠ loginErrorMessage 403 ∧
    loginErrorMessage 401 ≠ loginErrorMessage 500 ∧
    loginErrorMessage 403 ≠ loginErrorMessage 500 := by
  refine ⟨rfl, rfl, rfl, rfl, ?_, ?_, ?_, ?_, ?_, ?_⟩ <;> decide

/-- C7 (backend spec-modelled): against the spec-modelled login backend,
an unregistered email yields a 404 reply carrying no token, on which the
authorize callback of part_003 yields null (nothing stored); a
registered email yields 200 with a token and a user carrying role and
plan_tier, which authorize stores with the source's `||` defaults; and
on a 200 reply whose user object lacks role and plan_tier, authorize
stores role "user" and plan_tier "starter". -/
theorem login_bridge (db : String → Option (String × String × String))
    (email : String) (he : email ≠ "") :
    (db email = none →
        backendLogin db email =
          .reply 404 (.ok (.obj [("detail", .str "User not found")])) ∧
        jsGet (.obj [("detail", .str "User not found")]) "token" = none ∧
        authorize (some email) (backendLogin db email) = none) ∧
    (∀ token role tier, db email = some (token, role, tier) →
        backendLogin db email =
          .reply 200 (.ok (.obj [("token", .str token),
            ("user", .obj [("role", .str role), ("plan_tier", .str tier)])])) ∧
        ∃ au, authorize (some email) (backendLogin db email) = some au ∧
          au.backendToken = some (.str token) ∧
          au.role = jsOrV (some (.str role)) (some (.str "user")) ∧
          au.plan_tier = jsOrV (some (.str tier)) (some (.str "starter"))) ∧
    (∀ token, authorize (some email)
        (.reply 200 (.ok (.obj [("token", .str token), ("user", .obj [])]))) =
      some { id := none, email := email, name := some (.str email),
             plan_tier := some (.str "starter"),
             subscription_status := some (.str "trial"),
             role := some (.str "user"),
             backendToken := some (.str token) }) := by
  refine ⟨?_, ?_, ?_⟩
  · intro hdb
    refine ⟨by simp [backendLogin, hdb], rfl, ?_⟩
    simp [backendLogin, hdb, authorize, he, okStatus]
  · intro token role tier hdb
    refine ⟨by simp [backendLogin, hdb], ?_⟩
    refine ⟨{ id := none, email := email, name := some (.str email),
              plan_tier := jsOrV (some (.str tier)) (some (.str "starter")),
              subscription_status := some (.str "trial"),
              role := jsOrV (some (.str role)) (some (.str "user")),
              backendToken := some (.str token) }, ?_, rfl, rfl, rfl⟩
    simp only [backendLogin, hdb, authorize, if_neg he, okStatus]
    rfl
  · intro token
    simp only [authorize, if_neg he, okStatus]
    rfl

theorem login_bridge_witness :
    ("bob@example.com" : String) ≠ "" ∧
    authorize (some "bob@example.com")
        (backendLogin
          (fun e => if e = "ada@example.com"
            then some ("tok123", "admin", "growth") else none)
          "bob@example.com") = none ∧
    (∃ au, authorize (some "ada@example.com")
        (backendLogin
          (fun e => if e = "ada@example.com"
            then some ("tok123", "admin", "growth") else none)
          "ada@example.com") = some au ∧
      au.backendToken = some (.str "tok123") ∧
      au.role = jsOrV (some (.str "admin")) (some (.str "user")) ∧
      au.plan_tier = jsOrV (some (.str "growth")) (some (.str "starter"))) :=
  ⟨by decide,
   ((login_bridge
      (fun e => if e = "ada@example.com"
        then some ("tok123", "admin", "growth") else none)
      "bob@example.com" (by decide)).1 (by simp)).2.2,
   ((login_bridge
      (fun e => if e = "ada@example.com"
        then some ("tok123", "admin", "growth") else none)
      "ada@example.com" (by decide)).2.1 "tok123" "admin" "growth"
     (by simp)).2⟩

/-- C9: the startCheckout client helper never navigates the browser
unless the /api/checkout response is ok and its parsed body carries a
truthy url (for a string url: a non-empty one), and a null or undefined
priceId returns immediately with no network call. -/
theorem startCheckout_no_blind_redirect :
    (∀ p m, (startCheckout p (.thrown m)).navigatedTo = none) ∧
    (∀ p status body, okStatus status = false →
        (startCheckout p (.reply status body)).navigatedTo = none) ∧
    (∀ p status m,
        (startCheckout p (.reply status (.error m))).navigatedTo = none) ∧
    (∀ p status data u,
        (startCheckout p (.reply status (.ok data))).navigatedTo = some u →
        okStatus status = true ∧ jsGetOpt (some data) "url" = some u ∧
        truthy u = true) ∧
    (∀ s : String, truthy (.str s) = true ↔ s ≠ "") ∧
    (∀ r, startCheckout none r = ⟨none, 0⟩ ∧
        startCheckout (some .null) r = ⟨none, 0⟩) := by
  refine ⟨?_, ?_, ?_, ?_, ?_, ?_⟩
  · intro p m
    by_cases hp : truthyOpt p = true <;>
      simp [startCheckout, hp]
  · intro p status body hok
    by_cases hp : truthyOpt p = true <;>
      simp [startCheckout, hp, hok]
  · intro p status m
    by_cases hp : truthyOpt p = true <;>
      by_cases hok : okStatus status = true <;>
        simp [startCheckout, hp, hok]
  · intro p status data u h
    by_cases hp : truthyOpt p = true
    · by_cases hok : okStatus status = true
      · by_cases hu : truthyOpt (jsGetOpt (some data) "url") = true
        · simp [startCheckout, hp, hok, hu] at h
          refine ⟨hok, h, ?_⟩
          rw [h] at hu
          simpa [truthyOpt] using hu
        · simp [startCheckout, hp, hok, hu] at h
      · simp [startCheckout, hp, hok] at h
    · simp [startCheckout, hp] at h
  · intro s; simp [truthy]
  · intro r
    constructor <;> simp [startCheckout, truthyOpt, truthy]

theorem startCheckout_no_blind_redirect_witness :
    okStatus 200 = true ∧
    jsGetOpt (some (Json.obj [("url", Json.str "https://pay.example/s")]))
        "url" = some (.str "https://pay.example/s") ∧
    truthy (.str "https://pay.example/s") = true :=
  startCheckout_no_blind_redirect.2.2.2.1 (some (.str "price_1")) 200
    (.obj [("url", .str "https://pay.example/s")])
    (.str "https://pay.example/s") rfl

/-- C10: getErrorDetails is a total function of the error code; every
code outside the three known ones (including null, modelled as `none`)
gets the default Authentication Error details, and each known code gets
its fixed details. -/
theorem getErrorDetails_cases :
    (∀ c : Option String, c ≠ some "Configuration" → c ≠ some "AccessDenied" →
        c ≠ some "Verification" → getErrorDetails c = getErrorDetails none) ∧
    getErrorDetails none =
      { title := "Authentication Error"
        description :=
          "An unexpected error occurred during authentication. Please try again."
        icon := "AlertTriangle"
        color := "text-red-600"
        bgColor := "bg-red-100" } ∧
    getErrorDetails (some "Configuration") =
      { title := "Server Configuration Error"
        description :=
          "There was a problem with the server configuration. Please try again later."
        icon := "AlertTriangle"
        color := "text-red-600"
        bgColor := "bg-red-100" } ∧
    getErrorDetails (some "AccessDenied") =
      { title := "Access Denied"
        description :=
          "You don\x27t have permission to access this resource. Please contact your administrator."
        icon := "AlertTriangle"
        color := "text-red-600"
        bgColor := "bg-red-100" } ∧
    getErrorDetails (some "Verification") =
      { title := "Verification Failed"
        description :=
          "The verification link has expired or is invalid. Please request a new one."
        icon := "AlertTriangle"
        color := "text-orange-600"
        bgColor := "bg-orange-100" } := by
  refine ⟨?_, rfl, rfl, rfl, rfl⟩
  intro c h1 h2 h3
  unfold getErrorDetails
  split
  · exact absurd rfl h1
  · exact absurd rfl h2
  · exact absurd rfl h3
  · rfl

theorem getErrorDetails_cases_witness :
    getErrorDetails (some "SomeUnknownCode") = getErrorDetails none :=
  getErrorDetails_cases.1 (some "SomeUnknownCode")
    (by decide) (by decide) (by decide)
